import Mathlib

/-!
# The forward proxy of `cmd/example/main.go`

A shallow embedding of the proxy handlers of `cmd/example/main.go`
(`handleTunnel`, `fastHandleTunnel`, `transfer`, `handleHTTP`,
`fastHandleHTTP`, `copyHeader`, the request dispatcher and the accept
goroutine of `main`) together with the parts of `net/http` and `fasthttp`
they call, followed by the properties proved about them.

Calls into the outside world (dialling, the upstream exchange, hijacking,
the byte copy) get their results from an explicit environment; what a handler
does is recorded as the final state of its response and as the list of the
calls it made, in program order.
-/

namespace Proxy

/-! ## Header maps (`net/http.Header`) -/

/-- Token bytes of RFC 7230, as in `textproto.validHeaderFieldByte`: letters, digits
and the fifteen punctuation characters of a token, listed by code point. -/
def validHeaderFieldByte (c : Char) : Bool :=
  c.isAlphanum || [33, 35, 36, 37, 38, 39, 42, 43, 45, 46, 94, 95, 96, 124, 126].contains c.toNat

/-- The rewriting loop of `textproto.canonicalMIMEHeaderKey`: upper case for
the first letter and for every letter after a dash, lower case elsewhere. -/
def canonChars : Bool → List Char → List Char
  | _, [] => []
  | upper, c :: cs =>
    let c1 :=
      if upper && c.isLower then c.toUpper
      else if !upper && c.isUpper then c.toLower
      else c
    c1 :: canonChars (c1 == '-') cs

/-- The canonical form of a header key, `textproto.CanonicalMIMEHeaderKey`:
a key holding a byte that is not a token byte is returned unchanged. -/
def CanonicalMIMEHeaderKey (s : String) : String :=
  if s.toList.all validHeaderFieldByte then String.mk (canonChars true s.toList) else s

/-- A header map, `map[string][]string`: the entries in the order in which
a `range` visits them. The keys of a Go map are pairwise distinct. -/
abbrev Header := List (String × List String)

/-- The keys of a header map. -/
def Header.keys (h : Header) : List String := h.map Prod.fst

/-- The map read `h[k]`: the values under `k`, none when the key is absent. -/
def Header.values : Header → String → List String
  | [], _ => []
  | (k1, vs) :: t, k => if k1 = k then vs else Header.values t k

/-- The map write `h[k] = vs`. -/
def Header.assign : Header → String → List String → Header
  | [], k, vs => [(k, vs)]
  | (k1, vs1) :: t, k, vs =>
    if k1 = k then (k1, vs) :: t else (k1, vs1) :: Header.assign t k vs

/-- The map delete `delete(h, k)`. -/
def Header.delete : Header → String → Header
  | [], _ => []
  | (k1, vs1) :: t, k => if k1 = k then Header.delete t k else (k1, vs1) :: Header.delete t k

/-- The method `Header.Add(key, value)`:
`key = CanonicalMIMEHeaderKey(key); h[key] = append(h[key], value)`. -/
def Header.Add (h : Header) (key value : String) : Header :=
  let key := CanonicalMIMEHeaderKey key
  h.assign key (h.values key ++ [value])

/-- The method `Header.Set(key, value)`: `h[CanonicalMIMEHeaderKey(key)] = []string{value}`. -/
def Header.Set (h : Header) (key value : String) : Header :=
  h.assign (CanonicalMIMEHeaderKey key) [value]

/-- The method `Header.Del(key)`: `delete(h, CanonicalMIMEHeaderKey(key))`. -/
def Header.Del (h : Header) (key : String) : Header :=
  h.delete (CanonicalMIMEHeaderKey key)

/-- The function `copyHeader(dst, src)`:
`for k, vv := range src { for _, v := range vv { dst.Add(k, v) } }`.
The result is `dst` after the call. -/
def copyHeader (dst src : Header) : Header :=
  src.foldl (fun dst kvv => kvv.2.foldl (fun dst v => dst.Add kvv.1 v) dst) dst

/-! ## Connections, errors and the record of calls -/

/-- A live connection (`net.Conn`), by identity. A `net.Conn` interface
value is an `Option Conn`, with `none` for the nil interface. -/
abbrev Conn := Nat

/-- The constant `http.StatusOK`. -/
def StatusOK : Nat := 200

/-- The constant `http.StatusInternalServerError`. -/
def StatusInternalServerError : Nat := 500

/-- The constant `http.StatusServiceUnavailable`, equal to `fasthttp.StatusServiceUnavailable`. -/
def StatusServiceUnavailable : Nat := 503

/-- The constant `fasthttp.MethodConnect`. -/
def MethodConnect : String := "CONNECT"

/-- An inbound request of `net/http`: its method and `r.Host`. -/
structure Request where
  method : String
  host : String
  deriving DecidableEq, Repr

/-- The four handlers of the program. -/
inductive HandlerName
  | handleTunnel
  | fastHandleTunnel
  | handleHTTP
  | fastHandleHTTP
  deriving DecidableEq, Repr

/-- The calls a handler makes, recorded in program order. An error is
represented by its text, `err.Error()`. -/
inductive Call
  /-- the handler was entered -/
  | enter (h : HandlerName)
  /-- the call `pterm.Debug.Printfln` -/
  | printDebug (msg : String)
  /-- the call `net.DialTimeout(network, address, seconds * time.Second)` -/
  | dialTimeout (network address : String) (seconds : Nat)
  /-- the call `fasthttp.DialTimeout(address, seconds * time.Second)` -/
  | fastDialTimeout (address : String) (seconds : Nat)
  /-- the call `w.WriteHeader(code)` -/
  | writeHeader (code : Nat)
  /-- the call `ctx.Response.SetStatusCode(code)` or `ctx.SetStatusCode(code)` -/
  | setStatusCode (code : Nat)
  /-- the call `http.Error(w, msg, code)` -/
  | httpError (msg : String) (code : Nat)
  /-- the call `ctx.Error(msg, code)` -/
  | ctxError (msg : String) (code : Nat)
  /-- the call `hijacker.Hijack()` -/
  | hijack
  /-- the call `ctx.Hijack(handler)` -/
  | ctxHijack
  /-- the statement `go transfer(destination, source)` -/
  | goTransfer (destination source : Option Conn)
  /-- the call `http.DefaultTransport.RoundTrip(req)` -/
  | roundTrip (req : Request)
  /-- the call `fasthttp.DoRedirects(&ctx.Request, &ctx.Response, maxRedirects)` -/
  | doRedirects (maxRedirects : Nat)
  /-- the call `copyHeader(w.Header(), resp.Header)` -/
  | copyHeader
  /-- the call `io.Copy(w, resp.Body)` -/
  | ioCopy
  /-- the deferred call `resp.Body.Close()` -/
  | bodyClose
  deriving DecidableEq, Repr

/-- Whether a call starts a byte pump. -/
def Call.isPump : Call → Bool
  | .goTransfer _ _ => true
  | _ => false

/-- Whether a call takes the client connection out of the HTTP server's hands. -/
def Call.isHijack : Call → Bool
  | .hijack => true
  | .ctxHijack => true
  | _ => false

/-- Whether a call is an exchange with the upstream server. -/
def Call.isExchange : Call → Bool
  | .roundTrip _ => true
  | .doRedirects _ => true
  | _ => false

/-- The handler a call enters, if it is the entry of one. -/
def Call.entered : Call → Option HandlerName
  | .enter h => some h
  | _ => none

/-- The handlers invoked in a record of calls, in order. -/
def invoked (calls : List Call) : List HandlerName := calls.filterMap Call.entered

/-! ## The response writer of `net/http` -/

/-- The state of an `http.ResponseWriter`: the header map, whether the
status line was written and with which code, the body bytes written so far,
and whether the writer's dynamic type implements `http.Hijacker`. -/
structure ResponseWriter where
  header : Header
  wroteHeader : Bool
  status : Nat
  body : String
  hijacker : Bool
  deriving DecidableEq, Repr

/-- The writer as the server hands it to a handler: nothing written yet. -/
def ResponseWriter.Fresh (w : ResponseWriter) : Prop :=
  w.wroteHeader = false ∧ w.body = ""

instance (w : ResponseWriter) : Decidable w.Fresh := by
  unfold ResponseWriter.Fresh; infer_instance

/-- The method `WriteHeader(code)`: the first call fixes the status code of the
response; a later call is superfluous and changes nothing. -/
def ResponseWriter.WriteHeader (w : ResponseWriter) (code : Nat) : ResponseWriter :=
  if w.wroteHeader then w else { w with wroteHeader := true, status := code }

/-- The method `Write(data)`: writes the status line with `StatusOK` first if none
was written, then appends the data to the body. -/
def ResponseWriter.Write (w : ResponseWriter) (data : String) : ResponseWriter :=
  let w := if w.wroteHeader then w else w.WriteHeader StatusOK
  { w with body := w.body ++ data }

/-- The function `http.Error(w, error, code)`:
`h := w.Header(); h.Del("Content-Length"); h.Set("Content-Type", "text/plain; charset=utf-8");`
`h.Set("X-Content-Type-Options", "nosniff"); w.WriteHeader(code); fmt.Fprintln(w, error)`. -/
def Http.Error (w : ResponseWriter) (error : String) (code : Nat) : ResponseWriter :=
  let h := w.header
  let h := h.Del "Content-Length"
  let h := h.Set "Content-Type" "text/plain; charset=utf-8"
  let h := h.Set "X-Content-Type-Options" "nosniff"
  let w := { w with header := h }
  let w := w.WriteHeader code
  w.Write (error ++ "\n")

/-- An upstream response, `*http.Response`. -/
structure Response where
  statusCode : Nat
  header : Header
  body : String
  deriving DecidableEq, Repr

/-- What the outside world answers to the calls of the `net/http` handlers. -/
structure Env where
  /-- the result of `net.DialTimeout(network, address, seconds * time.Second)` -/
  dialTimeout : String → String → Nat → Except String Conn
  /-- the results `clientConn, err` of `hijacker.Hijack()` -/
  hijack : Option Conn × Option String
  /-- the result of `http.DefaultTransport.RoundTrip(req)` -/
  roundTrip : Request → Except String Response

/-- A handler of `net/http` at work: its response writer and the calls made so far. -/
structure HttpState where
  w : ResponseWriter
  calls : List Call
  deriving DecidableEq, Repr

/-- Record a call. -/
def HttpState.call (s : HttpState) (c : Call) : HttpState :=
  { s with calls := s.calls ++ [c] }

/-- The call `w.WriteHeader(code)`. -/
def HttpState.WriteHeader (s : HttpState) (code : Nat) : HttpState :=
  { w := s.w.WriteHeader code, calls := s.calls ++ [.writeHeader code] }

/-- The call `http.Error(w, error, code)`. -/
def HttpState.Error (s : HttpState) (error : String) (code : Nat) : HttpState :=
  { w := Http.Error s.w error code, calls := s.calls ++ [.httpError error code] }

/-- The function `handleTunnel(w, r)`. The dial error and the missing hijacker end the
handler (`return`); the branch of the hijack error has no `return`, so
control goes on to the two `go` statements with whatever `clientConn` is. -/
def handleTunnel (env : Env) (w : ResponseWriter) (r : Request) : HttpState :=
  let s : HttpState := { w := w, calls := [.enter .handleTunnel] }
  let s := s.call (.dialTimeout "tcp" r.host 10)
  match env.dialTimeout "tcp" r.host 10 with
  | .error err => s.Error err StatusServiceUnavailable
  | .ok destConn =>
    let s := s.WriteHeader StatusOK
    if !s.w.hijacker then
      s.Error "Hijacking not supported" StatusInternalServerError
    else
      let s := s.call .hijack
      let clientConn := env.hijack.1
      let s :=
        match env.hijack.2 with
        | some err => s.Error err StatusServiceUnavailable
        | none => s
      let s := s.call (.goTransfer (some destConn) clientConn)
      s.call (.goTransfer clientConn (some destConn))

/-- The function `handleHTTP(w, req)`, with a body copy that reaches the end of the body. -/
def handleHTTP (env : Env) (w : ResponseWriter) (req : Request) : HttpState :=
  let s : HttpState := { w := w, calls := [.enter .handleHTTP] }
  let s := s.call (.roundTrip req)
  match env.roundTrip req with
  | .error err => s.Error err StatusServiceUnavailable
  | .ok resp =>
    let s : HttpState :=
      { w := { s.w with header := copyHeader s.w.header resp.header },
        calls := s.calls ++ [.copyHeader] }
    let s := s.WriteHeader resp.statusCode
    let s : HttpState := { w := s.w.Write resp.body, calls := s.calls ++ [.ioCopy] }
    s.call .bodyClose

/-! ## The request context of `fasthttp` -/

/-- The inbound request of a `fasthttp.RequestCtx`: `ctx.Request.Header.Method()`
and `ctx.Request.Host()`. -/
structure FastRequest where
  method : String
  host : String
  deriving DecidableEq, Repr

/-- The response of a `fasthttp.RequestCtx`. Status code `0` is the unset
code of a response that was reset. -/
structure FastResponse where
  statusCode : Nat
  contentType : String
  header : Header
  body : String
  deriving DecidableEq, Repr

/-- The method `Response.Reset()`: clears the response. -/
def FastResponse.Reset (_resp : FastResponse) : FastResponse :=
  { statusCode := 0, contentType := "", header := [], body := "" }

/-- The state of a `fasthttp.RequestCtx`. The hijack handler, once registered with
`ctx.Hijack`, is the closure the server runs on the client connection after
it has sent the response; a closure is represented by the calls it makes. -/
structure RequestCtx where
  request : FastRequest
  response : FastResponse
  hijackHandler : Option (Conn → List Call)

/-- What the outside world answers to the calls of the `fasthttp` handlers. -/
structure FastEnv where
  /-- the result of `fasthttp.DialTimeout(address, seconds * time.Second)` -/
  dialTimeout : String → Nat → Except String Conn
  /-- the result of `fasthttp.DoRedirects(req, resp, maxRedirects)`: what the response
  holds after the call, and the error returned -/
  doRedirects : FastRequest → FastResponse → Nat → FastResponse × Option String

/-- A handler of `fasthttp` at work: its context and the calls made so far. -/
structure FastState where
  ctx : RequestCtx
  calls : List Call

/-- Record a call. -/
def FastState.call (s : FastState) (c : Call) : FastState :=
  { s with calls := s.calls ++ [c] }

/-- The call `ctx.SetStatusCode(code)`, which is `ctx.Response.SetStatusCode(code)`. -/
def FastState.SetStatusCode (s : FastState) (code : Nat) : FastState :=
  { ctx := { s.ctx with response := { s.ctx.response with statusCode := code } },
    calls := s.calls ++ [.setStatusCode code] }

/-- The call `ctx.Error(msg, statusCode)`: `ctx.Response.Reset(); ctx.SetStatusCode(statusCode);`
`ctx.SetContentTypeBytes(defaultContentType); ctx.SetBodyString(msg)`. -/
def FastState.Error (s : FastState) (msg : String) (statusCode : Nat) : FastState :=
  let resp := s.ctx.response.Reset
  let resp := { resp with statusCode := statusCode }
  let resp := { resp with contentType := "text/plain; charset=utf-8" }
  let resp := { resp with body := msg }
  { ctx := { s.ctx with response := resp }, calls := s.calls ++ [.ctxError msg statusCode] }

/-- The call `ctx.Hijack(handler)`: registers the handler. -/
def FastState.Hijack (s : FastState) (handler : Conn → List Call) : FastState :=
  { ctx := { s.ctx with hijackHandler := some handler }, calls := s.calls ++ [.ctxHijack] }

/-- The function `fastHandleTunnel(ctx)`. -/
def fastHandleTunnel (env : FastEnv) (s : FastState) : FastState :=
  let s := s.call (.enter .fastHandleTunnel)
  let s := s.call (.printDebug ("Dialing dest " ++ s.ctx.request.host))
  let s := s.call (.fastDialTimeout s.ctx.request.host 10)
  match env.dialTimeout s.ctx.request.host 10 with
  | .error err => s.Error err StatusServiceUnavailable
  | .ok destConn =>
    let s := s.SetStatusCode 200
    s.Hijack (fun clientConn =>
      [.goTransfer (some destConn) (some clientConn),
       .goTransfer (some clientConn) (some destConn)])

/-- The function `fastHandleHTTP(ctx)`. -/
def fastHandleHTTP (env : FastEnv) (s : FastState) : FastState :=
  let s := s.call (.enter .fastHandleHTTP)
  let s := s.call (.doRedirects 30)
  let result := env.doRedirects s.ctx.request s.ctx.response 30
  let s : FastState := { s with ctx := { s.ctx with response := result.1 } }
  match result.2 with
  | some err => s.Error err StatusServiceUnavailable
  | none => s.SetStatusCode 200

/-- The request handler `s` of `main`:
`if bytes.Equal(ctx.Request.Header.Method(), []byte(fasthttp.MethodConnect))`
`{ fastHandleTunnel(ctx) } else { fastHandleHTTP(ctx) }`. -/
def requestHandler (env : FastEnv) (s : FastState) : FastState :=
  if s.ctx.request.method = MethodConnect then fastHandleTunnel env s
  else fastHandleHTTP env s

/-- The state in which the server calls the request handler on a request: an empty
response, no hijack handler, no call made. -/
def FastState.start (req : FastRequest) : FastState :=
  { ctx := { request := req,
             response := { statusCode := 0, contentType := "", header := [], body := "" },
             hijackHandler := none },
    calls := [] }

/-- What the `fasthttp` server does once the request handler has returned and the
response is sent: it hijacks the client connection and runs the registered
hijack handler on it, if one was registered. -/
def FastState.hijacked (s : FastState) (clientConn : Conn) : List Call :=
  match s.ctx.hijackHandler with
  | some handler => handler clientConn
  | none => []

/-! ## The byte pump -/

/-- How `io.Copy(destination, source)` ended. -/
inductive CopyEnd
  /-- the source reached end-of-stream; `io.Copy` returns a nil error -/
  | eof
  /-- a read from the source failed -/
  | readError (text : String)
  /-- a write to the destination failed -/
  | writeError (text : String)
  deriving DecidableEq, Repr

/-- The steps of one pump, in the order they take place. -/
inductive PumpStep
  /-- the call `io.Copy(destination, source)` and how it ended -/
  | copy (destination source : Conn) (how : CopyEnd)
  /-- a call of `Close()` on a connection -/
  | close (c : Conn)
  /-- a run-time panic, here of a method call on a nil interface; not
  recovered, it ends the process -/
  | panic
  deriving DecidableEq, Repr

/-- The deferred `Close()` calls of a function that ends, last deferred first. The
argument is the defer stack, the last deferred call at its head. -/
def runDeferred (deferred : List Conn) : List PumpStep :=
  deferred.map PumpStep.close

/-- The function `transfer(destination, source)`:
`defer destination.Close(); defer source.Close(); io.Copy(destination, source)`.
A `defer` of a method of a nil interface panics where it stands; the calls
deferred before it still run. -/
def transfer (destination source : Option Conn) (how : CopyEnd) : List PumpStep :=
  match destination with
  | none => [.panic] ++ runDeferred []
  | some d =>
    let deferred := [d]
    match source with
    | none => [.panic] ++ runDeferred deferred
    | some s =>
      let deferred := s :: deferred
      [.copy d s how] ++ runDeferred deferred

/-- Which connections are closed: `true` for a closed one. -/
abbrev Net := Conn → Bool

/-- The effect of one pump step on the connections. -/
def PumpStep.apply (net : Net) : PumpStep → Net
  | .close c => fun c1 => if c1 = c then true else net c1
  | _ => net

/-- The connections after a pump's steps. -/
def runPump (steps : List PumpStep) (net : Net) : Net :=
  steps.foldl PumpStep.apply net

/-- Whether a pump crashes the process. -/
def crashes (steps : List PumpStep) : Bool := steps.contains PumpStep.panic

/-! ## The accept goroutine of `main` -/

/-- The error values the accept goroutine tells apart. -/
inductive ServeError
  /-- the sentinel `http.ErrServerClosed` -/
  | ErrServerClosed
  /-- any other error, by its text -/
  | other (text : String)
  deriving DecidableEq, Repr

/-- The text of an error value formatted with `%s`; a nil error prints as `%!s(<nil>)`. -/
def ServeError.format : Option ServeError → String
  | none => "%!s(<nil>)"
  | some .ErrServerClosed => "http: Server closed"
  | some (.other text) => text

/-- The test `errors.Is(err, http.ErrServerClosed)`. -/
def isErrServerClosed : Option ServeError → Bool
  | some .ErrServerClosed => true
  | _ => false

/-- A printer of `pterm`: its prefix and whether printing with it ends the process,
as `pterm.Fatal` does and `pterm.Error` does not. -/
structure PrefixPrinter where
  label : String
  fatal : Bool
  deriving DecidableEq, Repr

/-- The printer `pterm.Error`. -/
def ptermError : PrefixPrinter := { label := "ERROR", fatal := false }

/-- The printer `pterm.Fatal`. -/
def ptermFatal : PrefixPrinter := { label := "FATAL", fatal := true }

/-- The steps of a goroutine of `main`. -/
inductive MainStep
  /-- a line printed with a printer of `pterm` -/
  | print (printer : PrefixPrinter) (line : String)
  /-- the receive `<-closeChan` -/
  | recvCloseChan
  deriving DecidableEq, Repr

/-- Whether a step ends the whole process. -/
def MainStep.endsProcess : MainStep → Bool
  | .print printer _ => printer.fatal
  | .recvCloseChan => false

/-- The accept goroutine of `main`, from the error `srv.ListenAndServe()` returned:
`if !errors.Is(err, http.ErrServerClosed) { pterm.Error.Printfln("Server error: %s", err) }`
`<-closeChan; return`. -/
def acceptGoroutine (err : Option ServeError) : List MainStep :=
  let logged :=
    if !isErrServerClosed err then
      [MainStep.print ptermError ("Server error: " ++ ServeError.format err)]
    else []
  logged ++ [MainStep.recvCloseChan]

/-- The function `check(err)`: `if err != nil { pterm.Fatal.Println(err) }`. -/
def check (err : Option String) : List MainStep :=
  match err with
  | some text => [MainStep.print ptermFatal text]
  | none => []

/-! ## Sample inputs -/

/-- A writer on which nothing was written, of a type that implements `http.Hijacker`. -/
def sampleWriter : ResponseWriter :=
  { header := [], wroteHeader := false, status := 0, body := "", hijacker := true }

/-- A writer on which nothing was written, of a type that does not implement `http.Hijacker`. -/
def sampleWriterNoHijacker : ResponseWriter :=
  { header := [], wroteHeader := false, status := 0, body := "", hijacker := false }

/-- A CONNECT request. -/
def sampleConnect : Request := { method := "CONNECT", host := "example.com:443" }

/-- A GET request. -/
def sampleGet : Request := { method := "GET", host := "example.com" }

/-- An upstream answer with status 404 and a header of two values. -/
def sampleNotFound : Response :=
  { statusCode := 404, header := [("X-Custom", ["a", "b"])], body := "not found" }

/-- A world in which the dial gives connection 7, the hijack gives connection 3 and
the upstream answers 404. -/
def sampleEnv : Env :=
  { dialTimeout := fun _ _ _ => .ok 7
    hijack := (some 3, none)
    roundTrip := fun _ => .ok sampleNotFound }

/-- A world in which the dial and the upstream exchange fail. -/
def sampleEnvDown : Env :=
  { dialTimeout := fun _ _ _ => .error "dial tcp: i/o timeout"
    hijack := (some 3, none)
    roundTrip := fun _ => .error "dial tcp: connection refused" }

/-- A world in which the dial gives connection 7 and `Hijack()` returns a nil
connection and an error. -/
def sampleEnvHijackFails : Env :=
  { dialTimeout := fun _ _ _ => .ok 7
    hijack := (none, some "hijack failed")
    roundTrip := fun _ => .ok sampleNotFound }

/-- A world in which the dial gives connection 7 and the upstream exchange fills the
response with status 404 and a header of two values. -/
def sampleFastEnv : FastEnv :=
  { dialTimeout := fun _ _ => .ok 7
    doRedirects := fun _ _ _ =>
      ({ statusCode := 404, contentType := "text/plain", header := [("X-Custom", ["a", "b"])],
         body := "not found" }, none) }

/-- A world in which the dial fails and the upstream exchange fails, leaving a half-filled
response behind. -/
def sampleFastEnvDown : FastEnv :=
  { dialTimeout := fun _ _ => .error "dial timeout"
    doRedirects := fun _ _ _ =>
      ({ statusCode := 302, contentType := "text/html", header := [("Location", ["/next"])],
         body := "moved" }, some "connection refused") }

/-- The error of a listening socket that cannot be bound. -/
def sampleBindError : ServeError :=
  .other "listen tcp4 0.0.0.0:8080: bind: address already in use"

/-! ## Lemmas on header maps -/

theorem values_assign (h : Header) (k k2 : String) (vs : List String) :
    (h.assign k vs).values k2 = if k = k2 then vs else h.values k2 := by
  induction h with
  | nil => simp [Header.assign, Header.values]
  | cons p t ih =>
    obtain ⟨k1, vs1⟩ := p
    by_cases h1 : k1 = k
    · subst h1
      by_cases h2 : k1 = k2 <;> simp [Header.assign, Header.values, h2]
    · by_cases h2 : k1 = k2
      · subst h2
        have h3 : ¬ k = k1 := fun e => h1 e.symm
        simp [Header.assign, Header.values, h1, h3]
      · simp [Header.assign, Header.values, h1, h2, ih]

theorem values_Add (h : Header) (k v k2 : String) (hk : CanonicalMIMEHeaderKey k = k) :
    (h.Add k v).values k2 = if k = k2 then h.values k ++ [v] else h.values k2 := by
  simp [Header.Add, hk, values_assign]

theorem values_addAll (vv : List String) (h : Header) (k k2 : String)
    (hk : CanonicalMIMEHeaderKey k = k) :
    (vv.foldl (fun dst v => dst.Add k v) h).values k2
      = if k = k2 then h.values k ++ vv else h.values k2 := by
  induction vv generalizing h with
  | nil => by_cases e : k = k2 <;> simp [e]
  | cons v t ih =>
    rw [List.foldl_cons, ih, values_Add _ _ _ _ hk]
    by_cases e : k = k2 <;> simp [e, values_Add _ _ _ _ hk]

theorem values_of_not_mem (h : Header) (k : String) (hk : k ∉ h.keys) : h.values k = [] := by
  induction h with
  | nil => rfl
  | cons q t ih =>
    simp only [Header.keys, List.map_cons, List.mem_cons, not_or] at hk
    have := ih hk.2
    simp [Header.values, Ne.symm hk.1, this]

theorem hijacker_WriteHeader (w : ResponseWriter) (code : Nat) :
    (w.WriteHeader code).hijacker = w.hijacker := by
  unfold ResponseWriter.WriteHeader; split <;> rfl

/-! ## The tunnel handlers -/

/-- C1: on a CONNECT request whose dial succeeds and whose client connection is hijacked
(the writer implements `http.Hijacker` and `Hijack()` gives `clientConn` with a nil error;
for `fastHandleTunnel`, the server runs the registered hijack handler on `fclientConn`),
`handleTunnel` and `fastHandleTunnel` set the status 200 before they hijack, and what
follows is exactly two `go transfer` statements over the same two connections, one with
the destination connection as destination and the client connection as source, one the
other way round. -/
theorem tunnel_sets_200_hijacks_then_two_pumps
    (env : Env) (w : ResponseWriter) (r : Request) (destConn clientConn : Conn)
    (fenv : FastEnv) (s : FastState) (fdestConn fclientConn : Conn)
    (hdial : env.dialTimeout "tcp" r.host 10 = .ok destConn)
    (hhijacker : w.hijacker = true)
    (hhijack : env.hijack = (some clientConn, none))
    (hfresh : w.Fresh)
    (hfdial : fenv.dialTimeout s.ctx.request.host 10 = .ok fdestConn) :
    (handleTunnel env w r).calls =
        [.enter .handleTunnel, .dialTimeout "tcp" r.host 10, .writeHeader 200, .hijack,
         .goTransfer (some destConn) (some clientConn),
         .goTransfer (some clientConn) (some destConn)]
    ∧ (handleTunnel env w r).w.status = 200
    ∧ (fastHandleTunnel fenv s).calls = s.calls ++
        [.enter .fastHandleTunnel, .printDebug ("Dialing dest " ++ s.ctx.request.host),
         .fastDialTimeout s.ctx.request.host 10, .setStatusCode 200, .ctxHijack]
    ∧ (fastHandleTunnel fenv s).ctx.response.statusCode = 200
    ∧ (fastHandleTunnel fenv s).hijacked fclientConn =
        [.goTransfer (some fdestConn) (some fclientConn),
         .goTransfer (some fclientConn) (some fdestConn)] := by
  obtain ⟨hw, _⟩ := hfresh
  refine ⟨?_, ?_, ?_, ?_, ?_⟩
  · simp [handleTunnel, hdial, hhijack, HttpState.call, HttpState.WriteHeader,
      hijacker_WriteHeader, hhijacker, StatusOK]
  · simp [handleTunnel, hdial, hhijack, HttpState.call, HttpState.WriteHeader,
      hijacker_WriteHeader, hhijacker, StatusOK, ResponseWriter.WriteHeader, hw]
  · simp [fastHandleTunnel, hfdial, FastState.call, FastState.SetStatusCode, FastState.Hijack]
  · simp [fastHandleTunnel, hfdial, FastState.call, FastState.SetStatusCode, FastState.Hijack]
  · simp [fastHandleTunnel, hfdial, FastState.call, FastState.SetStatusCode, FastState.Hijack,
      FastState.hijacked]

/-- Witness of C1: the sample world, in which the dial gives connection 7 and the hijack
connection 3 (connection 4 for `fastHandleTunnel`). -/
theorem tunnel_sets_200_hijacks_then_two_pumps_witness :
    (sampleEnv.dialTimeout "tcp" sampleConnect.host 10 = .ok 7
      ∧ sampleWriter.hijacker = true ∧ sampleEnv.hijack = (some 3, none) ∧ sampleWriter.Fresh
      ∧ sampleFastEnv.dialTimeout
          (FastState.start ⟨"CONNECT", "example.com:443"⟩).ctx.request.host 10 = .ok 7)
    ∧ (handleTunnel sampleEnv sampleWriter sampleConnect).calls =
        [.enter .handleTunnel, .dialTimeout "tcp" "example.com:443" 10, .writeHeader 200, .hijack,
         .goTransfer (some 7) (some 3), .goTransfer (some 3) (some 7)]
    ∧ (fastHandleTunnel sampleFastEnv (.start ⟨"CONNECT", "example.com:443"⟩)).hijacked 4 =
        [.goTransfer (some 7) (some 4), .goTransfer (some 4) (some 7)] :=
  have h := tunnel_sets_200_hijacks_then_two_pumps sampleEnv sampleWriter sampleConnect 7 3
    sampleFastEnv (.start ⟨"CONNECT", "example.com:443"⟩) 7 4 rfl rfl rfl (by decide) rfl
  ⟨⟨rfl, rfl, rfl, by decide, rfl⟩, h.1, h.2.2.2.2⟩

/-- C2: on a CONNECT request whose dial fails with error `e`, `handleTunnel` and
`fastHandleTunnel` answer with status 503 and the text of `e` (as `http.Error` prints it,
on a line of its own; as `ctx.Error` sets it, the whole body), call neither `Hijack` nor
`go transfer`, and `fastHandleTunnel` registers no hijack handler. -/
theorem tunnel_dial_failure_503_no_hijack_no_pump
    (env : Env) (w : ResponseWriter) (r : Request) (e : String)
    (fenv : FastEnv) (s : FastState) (fe : String)
    (hdial : env.dialTimeout "tcp" r.host 10 = .error e)
    (hfresh : w.Fresh)
    (hfdial : fenv.dialTimeout s.ctx.request.host 10 = .error fe) :
    (handleTunnel env w r).calls =
        [.enter .handleTunnel, .dialTimeout "tcp" r.host 10, .httpError e 503]
    ∧ (handleTunnel env w r).w.status = 503
    ∧ (handleTunnel env w r).w.body = e ++ "\n"
    ∧ (∀ c ∈ (handleTunnel env w r).calls, c.isHijack = false ∧ c.isPump = false)
    ∧ (fastHandleTunnel fenv s).calls = s.calls ++
        [.enter .fastHandleTunnel, .printDebug ("Dialing dest " ++ s.ctx.request.host),
         .fastDialTimeout s.ctx.request.host 10, .ctxError fe 503]
    ∧ (fastHandleTunnel fenv s).ctx.response =
        { statusCode := 503, contentType := "text/plain; charset=utf-8", header := [], body := fe }
    ∧ (fastHandleTunnel fenv s).ctx.hijackHandler = s.ctx.hijackHandler
    ∧ (∀ conn, (fastHandleTunnel fenv s).hijacked conn = s.hijacked conn) := by
  obtain ⟨hw, hb⟩ := hfresh
  have hcalls : (handleTunnel env w r).calls =
      [.enter .handleTunnel, .dialTimeout "tcp" r.host 10, .httpError e 503] := by
    simp [handleTunnel, hdial, HttpState.call, HttpState.Error, StatusServiceUnavailable]
  refine ⟨hcalls, ?_, ?_, ?_, ?_, ?_, ?_, ?_⟩
  · simp [handleTunnel, hdial, HttpState.call, HttpState.Error, StatusServiceUnavailable,
      Http.Error, ResponseWriter.WriteHeader, ResponseWriter.Write, hw]
  · simp [handleTunnel, hdial, HttpState.call, HttpState.Error, StatusServiceUnavailable,
      Http.Error, ResponseWriter.WriteHeader, ResponseWriter.Write, hw, hb]
  · rw [hcalls]
    simp [Call.isHijack, Call.isPump]
  · simp [fastHandleTunnel, hfdial, FastState.call, FastState.Error, StatusServiceUnavailable]
  · simp [fastHandleTunnel, hfdial, FastState.call, FastState.Error, StatusServiceUnavailable,
      FastResponse.Reset]
  · simp [fastHandleTunnel, hfdial, FastState.call, FastState.Error]
  · intro conn
    simp [fastHandleTunnel, hfdial, FastState.call, FastState.Error, FastState.hijacked]

/-- Witness of C2: the sample world in which the dial fails. -/
theorem tunnel_dial_failure_503_no_hijack_no_pump_witness :
    (sampleEnvDown.dialTimeout "tcp" sampleConnect.host 10 = .error "dial tcp: i/o timeout"
      ∧ sampleWriter.Fresh
      ∧ sampleFastEnvDown.dialTimeout
          (FastState.start ⟨"CONNECT", "example.com:443"⟩).ctx.request.host 10
            = .error "dial timeout")
    ∧ (handleTunnel sampleEnvDown sampleWriter sampleConnect).w.status = 503
    ∧ (handleTunnel sampleEnvDown sampleWriter sampleConnect).w.body = "dial tcp: i/o timeout\n"
    ∧ (fastHandleTunnel sampleFastEnvDown (.start ⟨"CONNECT", "example.com:443"⟩)).ctx.response =
        { statusCode := 503, contentType := "text/plain; charset=utf-8", header := [],
          body := "dial timeout" } :=
  have h := tunnel_dial_failure_503_no_hijack_no_pump sampleEnvDown sampleWriter sampleConnect
    "dial tcp: i/o timeout" sampleFastEnvDown (.start ⟨"CONNECT", "example.com:443"⟩)
    "dial timeout" rfl (by decide) rfl
  ⟨⟨rfl, by decide, rfl⟩, h.2.1, h.2.2.1, h.2.2.2.2.2.1⟩

/-! ## The header copy -/

/-- C3: `copyHeader` is a full, order-preserving merge. For a source map whose keys are
pairwise distinct (a Go map) and in canonical form, in whatever order the `range` visits
them, and for every key `k`: the values `dst` holds under `k` after `copyHeader(dst, src)`
are the values it held before, followed by the values of `src` under `k` in their order.
For a key that `src` does not have, the values of `src` are none and those of `dst` are
unchanged, so no value of `dst` is overwritten or dropped. -/
theorem copyHeader_appends_in_order (dst src : Header) (k : String)
    (hdistinct : src.keys.Nodup)
    (hcanon : ∀ k1 ∈ src.keys, CanonicalMIMEHeaderKey k1 = k1) :
    (copyHeader dst src).values k = dst.values k ++ src.values k := by
  unfold copyHeader
  induction src generalizing dst with
  | nil => simp [Header.values]
  | cons p t ih =>
    obtain ⟨k1, vv⟩ := p
    simp only [Header.keys, List.map_cons, List.nodup_cons, List.mem_cons,
      forall_eq_or_imp] at hdistinct hcanon
    rw [List.foldl_cons, ih _ hdistinct.2 hcanon.2, values_addAll _ _ _ _ hcanon.1]
    by_cases e : k1 = k
    · subst e
      simp [Header.values, values_of_not_mem t k1 hdistinct.1]
    · simp [Header.values, e]

/-- Witness of C3: two values of `Set-Cookie` and one of `X-Custom` merged into a map that
already holds a `Set-Cookie` value. -/
theorem copyHeader_appends_in_order_witness :
    (Header.keys [("Set-Cookie", ["b=2", "c=3"]), ("X-Custom", ["x"])]).Nodup
    ∧ (∀ k1 ∈ Header.keys [("Set-Cookie", ["b=2", "c=3"]), ("X-Custom", ["x"])],
        CanonicalMIMEHeaderKey k1 = k1)
    ∧ (copyHeader [("Set-Cookie", ["a=1"])]
          [("Set-Cookie", ["b=2", "c=3"]), ("X-Custom", ["x"])]).values "Set-Cookie"
        = ["a=1", "b=2", "c=3"] :=
  ⟨by decide, by decide,
    copyHeader_appends_in_order [("Set-Cookie", ["a=1"])]
      [("Set-Cookie", ["b=2", "c=3"]), ("X-Custom", ["x"])] "Set-Cookie" (by decide) (by decide)⟩

/-! ## The byte pump -/

/-- C5: for every source and destination and for every way the copy ends (end-of-stream,
read error, write error), `transfer` runs the copy and then closes the source and the
destination: whatever the connections' state before, both are closed after the pump,
and the pump does not panic. -/
theorem transfer_closes_source_and_destination
    (destination source : Conn) (how : CopyEnd) (net : Net) :
    transfer (some destination) (some source) how =
        [.copy destination source how, .close source, .close destination]
    ∧ runPump (transfer (some destination) (some source) how) net source = true
    ∧ runPump (transfer (some destination) (some source) how) net destination = true
    ∧ crashes (transfer (some destination) (some source) how) = false := by
  refine ⟨rfl, ?_, ?_, ?_⟩
  · simp [transfer, runDeferred, runPump, PumpStep.apply]
  · simp [transfer, runDeferred, runPump, PumpStep.apply]
  · simp [transfer, runDeferred, crashes]

/-! ## The dispatcher -/

/-- C6: for every request, the request handler of `main` invokes exactly one handler,
`fastHandleTunnel` if the method is `CONNECT` and `fastHandleHTTP` otherwise: its result is
that handler's result, and the one handler entry it adds to the record of calls is decided
by the method alone, whatever the rest of the request and the outside world are. -/
theorem requestHandler_dispatches_on_method (env : FastEnv) (s : FastState) :
    requestHandler env s =
        (if s.ctx.request.method = "CONNECT" then fastHandleTunnel env s
         else fastHandleHTTP env s)
    ∧ invoked (requestHandler env s).calls = invoked s.calls ++
        [if s.ctx.request.method = "CONNECT" then HandlerName.fastHandleTunnel
         else HandlerName.fastHandleHTTP] := by
  refine ⟨rfl, ?_⟩
  by_cases hm : s.ctx.request.method = "CONNECT"
  · simp only [requestHandler, MethodConnect, hm, if_true]
    cases hd : env.dialTimeout s.ctx.request.host 10 <;>
      simp [fastHandleTunnel, hd, FastState.call, FastState.Error, FastState.SetStatusCode,
        FastState.Hijack, invoked, Call.entered, List.filterMap_append]
  · simp only [requestHandler, MethodConnect, hm, if_false]
    cases he : (env.doRedirects s.ctx.request s.ctx.response 30).2 <;>
      simp [fastHandleHTTP, he, FastState.call, FastState.Error, FastState.SetStatusCode,
        invoked, Call.entered, List.filterMap_append]

/-! ## The forward handlers -/

/-- C7: on a request whose upstream exchange fails with error `e`, `handleHTTP` and
`fastHandleHTTP` answer with status 503 and the text of `e` as body (as `http.Error` prints
it, terminated by a newline; as `ctx.Error` sets it, the whole body). The response is the
error reply alone: `handleHTTP` never calls `copyHeader` or `WriteHeader(resp.StatusCode)`,
and `ctx.Error` resets whatever the failed exchange left in the response of
`fastHandleHTTP`. The exchange is called once. -/
theorem forward_exchange_failure_503_no_copy_no_retry
    (env : Env) (w : ResponseWriter) (req : Request) (e : String)
    (fenv : FastEnv) (s : FastState) (left : FastResponse) (fe : String)
    (herr : env.roundTrip req = .error e)
    (hfresh : w.Fresh)
    (hferr : fenv.doRedirects s.ctx.request s.ctx.response 30 = (left, some fe)) :
    (handleHTTP env w req).calls = [.enter .handleHTTP, .roundTrip req, .httpError e 503]
    ∧ (handleHTTP env w req).w = Http.Error w e 503
    ∧ (handleHTTP env w req).w.status = 503
    ∧ (handleHTTP env w req).w.body = e ++ "\n"
    ∧ ((handleHTTP env w req).calls.filter Call.isExchange).length = 1
    ∧ (fastHandleHTTP fenv s).calls = s.calls ++
        [.enter .fastHandleHTTP, .doRedirects 30, .ctxError fe 503]
    ∧ (fastHandleHTTP fenv s).ctx.response =
        { statusCode := 503, contentType := "text/plain; charset=utf-8", header := [], body := fe }
    ∧ (((fastHandleHTTP fenv s).calls.drop s.calls.length).filter Call.isExchange).length = 1 := by
  obtain ⟨hw, hb⟩ := hfresh
  have hcalls : (handleHTTP env w req).calls =
      [.enter .handleHTTP, .roundTrip req, .httpError e 503] := by
    simp [handleHTTP, herr, HttpState.call, HttpState.Error, StatusServiceUnavailable]
  have hfcalls : (fastHandleHTTP fenv s).calls = s.calls ++
      [.enter .fastHandleHTTP, .doRedirects 30, .ctxError fe 503] := by
    simp [fastHandleHTTP, hferr, FastState.call, FastState.Error, StatusServiceUnavailable]
  refine ⟨hcalls, ?_, ?_, ?_, ?_, hfcalls, ?_, ?_⟩
  · simp [handleHTTP, herr, HttpState.call, HttpState.Error, StatusServiceUnavailable]
  · simp [handleHTTP, herr, HttpState.call, HttpState.Error, StatusServiceUnavailable,
      Http.Error, ResponseWriter.WriteHeader, ResponseWriter.Write, hw]
  · simp [handleHTTP, herr, HttpState.call, HttpState.Error, StatusServiceUnavailable,
      Http.Error, ResponseWriter.WriteHeader, ResponseWriter.Write, hw, hb]
  · rw [hcalls]
    simp [Call.isExchange]
  · simp [fastHandleHTTP, hferr, FastState.call, FastState.Error, StatusServiceUnavailable,
      FastResponse.Reset]
  · rw [hfcalls]
    simp [Call.isExchange]

/-- Witness of C7: the sample worlds in which the upstream exchange fails. -/
theorem forward_exchange_failure_503_no_copy_no_retry_witness :
    (sampleEnvDown.roundTrip sampleGet = .error "dial tcp: connection refused"
      ∧ sampleWriter.Fresh
      ∧ sampleFastEnvDown.doRedirects (FastState.start ⟨"GET", "example.com"⟩).ctx.request
          (FastState.start ⟨"GET", "example.com"⟩).ctx.response 30 =
          ({ statusCode := 302, contentType := "text/html", header := [("Location", ["/next"])],
             body := "moved" }, some "connection refused"))
    ∧ (handleHTTP sampleEnvDown sampleWriter sampleGet).w.status = 503
    ∧ (handleHTTP sampleEnvDown sampleWriter sampleGet).w.body = "dial tcp: connection refused\n"
    ∧ (fastHandleHTTP sampleFastEnvDown (.start ⟨"GET", "example.com"⟩)).ctx.response =
        { statusCode := 503, contentType := "text/plain; charset=utf-8", header := [],
          body := "connection refused" } :=
  have h := forward_exchange_failure_503_no_copy_no_retry sampleEnvDown sampleWriter sampleGet
    "dial tcp: connection refused" sampleFastEnvDown (.start ⟨"GET", "example.com"⟩)
    { statusCode := 302, contentType := "text/html", header := [("Location", ["/next"])],
      body := "moved" } "connection refused" rfl (by decide) rfl
  ⟨⟨rfl, by decide, rfl⟩, h.2.2.1, h.2.2.2.1, h.2.2.2.2.2.2.1⟩

/-- The status `handleHTTP` sends is the status of the upstream response. -/
theorem handleHTTP_status (env : Env) (w : ResponseWriter) (req : Request) (resp : Response)
    (hok : env.roundTrip req = .ok resp) (hfresh : w.Fresh) :
    (handleHTTP env w req).w.status = resp.statusCode := by
  obtain ⟨hw, _⟩ := hfresh
  simp [handleHTTP, hok, HttpState.call, HttpState.WriteHeader, ResponseWriter.WriteHeader,
    ResponseWriter.Write, hw]

/-- The status `fastHandleHTTP` leaves in the response after an exchange without error is
200, whatever status the exchange put there. -/
theorem fastHandleHTTP_status (fenv : FastEnv) (s : FastState)
    (hok : (fenv.doRedirects s.ctx.request s.ctx.response 30).2 = none) :
    (fastHandleHTTP fenv s).ctx.response.statusCode = 200 := by
  simp [fastHandleHTTP, hok, FastState.call, FastState.SetStatusCode]

/-- C4, at the failing input: the upstream exchange succeeds with status 404.
`handleHTTP` answers 404, and `fastHandleHTTP`, whose response the exchange filled with
status 404, answers 200: its `ctx.SetStatusCode(200)` comes after the exchange. -/
theorem fastHandleHTTP_upstream_404_downstream_200 :
    (sampleFastEnv.doRedirects ⟨"GET", "example.com"⟩
        (FastState.start ⟨"GET", "example.com"⟩).ctx.response 30).1.statusCode = 404
    ∧ (sampleFastEnv.doRedirects ⟨"GET", "example.com"⟩
        (FastState.start ⟨"GET", "example.com"⟩).ctx.response 30).2 = none
    ∧ (fastHandleHTTP sampleFastEnv (.start ⟨"GET", "example.com"⟩)).ctx.response.statusCode = 200
    ∧ (fastHandleHTTP sampleFastEnv (.start ⟨"GET", "example.com"⟩)).calls =
        [.enter .fastHandleHTTP, .doRedirects 30, .setStatusCode 200]
    ∧ sampleEnv.roundTrip sampleGet = .ok sampleNotFound
    ∧ (handleHTTP sampleEnv sampleWriter sampleGet).w.status = 404 := by
  refine ⟨rfl, rfl, rfl, rfl, rfl, ?_⟩
  decide

/-- C8, at the failing input: the dial succeeds and the writer does not implement
`http.Hijacker`. `handleTunnel` has called `WriteHeader(200)` before it asks for the
hijacker, so the `WriteHeader(500)` inside `http.Error` is superfluous: the response has
status 200 and the body `Hijacking not supported`. No pump is started. -/
theorem handleTunnel_no_hijacker_status_200 :
    sampleEnv.dialTimeout "tcp" sampleConnect.host 10 = .ok 7
    ∧ sampleWriterNoHijacker.hijacker = false
    ∧ sampleWriterNoHijacker.Fresh
    ∧ (handleTunnel sampleEnv sampleWriterNoHijacker sampleConnect).calls =
        [.enter .handleTunnel, .dialTimeout "tcp" "example.com:443" 10, .writeHeader 200,
         .httpError "Hijacking not supported" 500]
    ∧ (handleTunnel sampleEnv sampleWriterNoHijacker sampleConnect).w.status = 200
    ∧ (handleTunnel sampleEnv sampleWriterNoHijacker sampleConnect).w.body =
        "Hijacking not supported\n" := by
  refine ⟨rfl, rfl, ?_, ?_, ?_, ?_⟩ <;> decide

/-- C10, at the failing input: the dial succeeds, the writer implements `http.Hijacker` and
`Hijack()` returns a nil connection and an error. `handleTunnel` calls `http.Error` and,
for want of a `return`, goes on to both `go transfer` statements with the nil client
connection; each of the two pumps panics. The status of the response stays 200. -/
theorem handleTunnel_hijack_error_starts_pumps_on_nil :
    sampleEnvHijackFails.dialTimeout "tcp" sampleConnect.host 10 = .ok 7
    ∧ sampleWriter.hijacker = true
    ∧ sampleEnvHijackFails.hijack = (none, some "hijack failed")
    ∧ (handleTunnel sampleEnvHijackFails sampleWriter sampleConnect).calls =
        [.enter .handleTunnel, .dialTimeout "tcp" "example.com:443" 10, .writeHeader 200,
         .hijack, .httpError "hijack failed" 503,
         .goTransfer (some 7) none, .goTransfer none (some 7)]
    ∧ (handleTunnel sampleEnvHijackFails sampleWriter sampleConnect).w.status = 200
    ∧ (∀ how, crashes (transfer (some 7) none how) = true)
    ∧ (∀ how, crashes (transfer none (some 7) how) = true) := by
  refine ⟨rfl, rfl, rfl, ?_, ?_, ?_, ?_⟩
  · decide
  · decide
  · intro how
    simp [transfer, runDeferred, crashes]
  · intro how
    simp [transfer, runDeferred, crashes]

/-! ## The accept goroutine -/

/-- C9, as stated, fails: when `ListenAndServe` returns the error of a socket that cannot be
bound, which is not `http.ErrServerClosed`, no step of the accept goroutine ends the
process. -/
theorem acceptGoroutine_bind_error_not_fatal :
    isErrServerClosed (some sampleBindError) = false
    ∧ ¬ ((acceptGoroutine (some sampleBindError)).any MainStep.endsProcess = true) := by
  decide

/-- C9, amended: when `ListenAndServe` returns an error other than `http.ErrServerClosed`,
the accept goroutine prints `Server error: ` and the error's text with `pterm.Error`, a
printer that does not end the process, and then waits on `closeChan`; none of its steps
ends the process. (A line printed by `check`, with `pterm.Fatal`, does end it.) -/
theorem acceptGoroutine_logs_error_and_waits (text : String) :
    isErrServerClosed (some (.other text)) = false
    ∧ acceptGoroutine (some (.other text)) =
        [.print ptermError ("Server error: " ++ text), .recvCloseChan]
    ∧ (acceptGoroutine (some (.other text))).any MainStep.endsProcess = false
    ∧ (check (some text)).any MainStep.endsProcess = true := by
  refine ⟨rfl, rfl, ?_, ?_⟩
  · simp [acceptGoroutine, isErrServerClosed, MainStep.endsProcess, ptermError]
  · simp [check, MainStep.endsProcess, ptermFatal]

end Proxy
